import Mathlib

/-!
Verification development for the mortgage calculator script
(src/mortage_calculator.py).

The script's floating-point arithmetic is modelled over the real numbers:
Python's `math.pow` / `pow` on floats becomes real exponentiation
(`Real.rpow`), and a Python `ZeroDivisionError` corresponds to the Lean
convention `x / 0 = 0`, which the relevant theorems make explicit.
-/

namespace MortageCalculator

open Finset

/-- Embedding of `calculate_monthly_payment` (src/mortage_calculator.py,
lines 4-35): amortized monthly payment `L * r / (1 - (1+r)^(-n))` with
`r = annual_interest_rate / 12` and `n = 12 * years`. -/
noncomputable def calculate_monthly_payment
    (loan_amount annual_interest_rate years : ℝ) : ℝ :=
  let monthly_interest_rate := annual_interest_rate / 12
  let num_payments := 12 * years
  let numerator := loan_amount * monthly_interest_rate
  let denominator := 1 - (1 + monthly_interest_rate) ^ (-num_payments)
  numerator / denominator

/-- Embedding of `calculate_total_interest` (lines 39-53). -/
def calculate_total_interest (loan_amount monthly_payment years : ℝ) : ℝ :=
  let total_paid := monthly_payment * 12 * years
  let total_interest := total_paid - loan_amount
  total_interest

/-- Embedding of `calculate_opportunity_cost` (lines 57-82): future value of
a monthly contribution series, with a linear fallback when the monthly
return is not strictly positive. -/
noncomputable def calculate_opportunity_cost
    (payment_diff years annual_investment_return : ℝ) : ℝ :=
  let monthly_return := annual_investment_return / 12
  let months := years * 12
  if monthly_return > 0 then
    payment_diff * (((1 + monthly_return) ^ months - 1) / monthly_return)
  else
    payment_diff * months

/-- Embedding of `calculate_inflation_adjusted_value` (lines 86-98). -/
noncomputable def calculate_inflation_adjusted_value
    (value years annual_inflation_rate : ℝ) : ℝ :=
  value / (1 + annual_inflation_rate) ^ years

/-- The inputs the script fixes at module scope (lines 102-106), abstracted
into an explicit configuration record so the sweep can be stated for
arbitrary inputs. -/
structure Config where
  loan_amount : ℝ
  annual_interest_rate : ℝ
  investment_return_rate : ℝ
  annual_inflation_rate : ℝ
  monthly_salary : ℝ

/-- The concrete configuration hard-coded by the script (lines 102-106). -/
noncomputable def script_config : Config :=
  ⟨2500000, 0.08, 0.4, 0.28, 200000⟩

/-- Baseline 30-year monthly payment `payment_30` (line 110). -/
noncomputable def payment_30 (c : Config) : ℝ :=
  calculate_monthly_payment c.loan_amount c.annual_interest_rate 30

/-- Baseline 30-year total interest `total_interest_30` (line 111). -/
noncomputable def total_interest_30 (c : Config) : ℝ :=
  calculate_total_interest c.loan_amount (payment_30 c) 30

/-- Baseline 30-year total cost `total_cost_30` (line 112). -/
noncomputable def total_cost_30 (c : Config) : ℝ :=
  c.loan_amount + total_interest_30 c

/-- One row of the comparison table, the dict appended at lines 150-160. -/
structure TermResult where
  term : ℕ
  monthly_payment : ℝ
  total_interest : ℝ
  total_cost : ℝ
  savings : ℝ
  investment_value_in_term : ℝ
  investment_value : ℝ

/-- Body of the sweep loop for one term (lines 118-160).  The local pair
`iv` holds `(investment_value_in_term, investment_value)`, the two
variables the Python branches assign before the record is appended. -/
noncomputable def term_result (c : Config) (term : ℕ) : TermResult :=
  let monthly_payment :=
    calculate_monthly_payment c.loan_amount c.annual_interest_rate term
  let total_interest := calculate_total_interest c.loan_amount monthly_payment term
  let total_cost := c.loan_amount + total_interest
  let savings := total_cost_30 c - total_cost
  let iv : ℝ × ℝ :=
    if term < 30 then
      let payment_diff := c.monthly_salary - monthly_payment
      if payment_diff < 0 then
        (0, calculate_opportunity_cost c.monthly_salary (30 - (term : ℝ))
              c.investment_return_rate)
      else
        let investment_value_in_term :=
          calculate_opportunity_cost payment_diff term c.investment_return_rate
        (investment_value_in_term,
          investment_value_in_term +
            calculate_opportunity_cost c.monthly_salary (30 - (term : ℝ))
              c.investment_return_rate)
    else
      (0, 0)
  { term := term
    monthly_payment := monthly_payment
    total_interest := total_interest
    total_cost := total_cost
    savings := savings
    investment_value_in_term := iv.1
    investment_value := iv.2 }

/-- The sweep `for term in range(1, 31)` building `term_results`
(lines 115-160). -/
noncomputable def term_results (c : Config) : List TermResult :=
  (List.range 30).map fun i => term_result c (i + 1)

/-! Basic projection lemmas: the four leading fields of a `TermResult` do
not depend on the investment branch. -/

lemma term_result_term (c : Config) (t : ℕ) : (term_result c t).term = t := rfl

lemma term_result_monthly_payment (c : Config) (t : ℕ) :
    (term_result c t).monthly_payment
      = calculate_monthly_payment c.loan_amount c.annual_interest_rate t := rfl

lemma term_result_total_interest (c : Config) (t : ℕ) :
    (term_result c t).total_interest
      = calculate_total_interest c.loan_amount
          (calculate_monthly_payment c.loan_amount c.annual_interest_rate t) t := rfl

lemma term_result_savings (c : Config) (t : ℕ) :
    (term_result c t).savings
      = total_cost_30 c -
          (c.loan_amount + calculate_total_interest c.loan_amount
            (calculate_monthly_payment c.loan_amount c.annual_interest_rate t) t) := rfl

lemma calculate_total_interest_eq (loan_amount monthly_payment years : ℝ) :
    calculate_total_interest loan_amount monthly_payment years
      = monthly_payment * 12 * years - loan_amount := rfl

/-- C7: `calculate_total_interest` returns `payment * 12 * years - principal`
for all real inputs, with no validation. -/
theorem calculate_total_interest_spec (loan_amount monthly_payment years : ℝ) :
    calculate_total_interest loan_amount monthly_payment years
      = monthly_payment * 12 * years - loan_amount := rfl

/-- C8: `calculate_inflation_adjusted_value` returns
`futureValue / (1 + annualInflationRate)^years` for every real (possibly
fractional) `years`, and at `years = 0` it returns the future value
unchanged for any rate. -/
theorem calculate_inflation_adjusted_value_spec
    (value years annual_inflation_rate : ℝ) :
    calculate_inflation_adjusted_value value years annual_inflation_rate
        = value / (1 + annual_inflation_rate) ^ years
      ∧ calculate_inflation_adjusted_value value 0 annual_inflation_rate = value := by
  constructor
  · rfl
  · unfold calculate_inflation_adjusted_value
    rw [Real.rpow_zero, div_one]

/-- C1: for positive annual rate and positive years,
`calculate_monthly_payment` returns
`principal * r / (1 - (1+r)^(-n))` with `r = annualRate/12`, `n = years*12`. -/
theorem calculate_monthly_payment_spec (principal annualRate years : ℝ)
    (hr : 0 < annualRate) (hy : 0 < years) :
    calculate_monthly_payment principal annualRate years
      = principal * (annualRate / 12) /
          (1 - (1 + annualRate / 12) ^ (-(years * 12))) := by
  unfold calculate_monthly_payment
  rw [mul_comm years 12]

/-- Witness for C1 at `principal = 1`, `annualRate = 1`, `years = 1`. -/
theorem calculate_monthly_payment_spec_witness :
    (0 : ℝ) < 1 ∧ (0 : ℝ) < 1 ∧
      calculate_monthly_payment 1 1 1
        = 1 * ((1 : ℝ) / 12) / (1 - (1 + (1 : ℝ) / 12) ^ (-((1 : ℝ) * 12))) :=
  ⟨one_pos, one_pos, calculate_monthly_payment_spec 1 1 1 one_pos one_pos⟩

/-- C2: `calculate_opportunity_cost` returns the compound annuity value when
the monthly return `rate/12` is strictly positive, returns
`periodicAmount * n` with `n = years * 12` when the monthly return is zero,
and in particular at annual rate `0` returns `periodicAmount * years * 12`. -/
theorem calculate_opportunity_cost_spec (payment_diff years rate : ℝ) :
    (0 < rate / 12 →
        calculate_opportunity_cost payment_diff years rate
          = payment_diff * (((1 + rate / 12) ^ (years * 12) - 1) / (rate / 12)))
      ∧ (rate / 12 = 0 →
          calculate_opportunity_cost payment_diff years rate
            = payment_diff * (years * 12))
      ∧ calculate_opportunity_cost payment_diff years 0
          = payment_diff * years * 12 := by
  refine ⟨fun h => ?_, fun h => ?_, ?_⟩
  · unfold calculate_opportunity_cost
    rw [if_pos h]
  · unfold calculate_opportunity_cost
    rw [if_neg (by rw [h]; exact lt_irrefl 0)]
  · unfold calculate_opportunity_cost
    rw [if_neg (by norm_num)]
    ring

/-- Witness for C2: the positive-rate case at rate 12 and the zero-rate
cases, at `payment_diff = 2`, `years = 3`. -/
theorem calculate_opportunity_cost_spec_witness :
    ((0 : ℝ) < 12 / 12 ∧
        calculate_opportunity_cost 2 3 12
          = 2 * (((1 + (12 : ℝ) / 12) ^ ((3 : ℝ) * 12) - 1) / ((12 : ℝ) / 12)))
      ∧ ((0 : ℝ) / 12 = 0 ∧
          calculate_opportunity_cost 2 3 0 = 2 * ((3 : ℝ) * 12))
      ∧ calculate_opportunity_cost 2 3 0 = 2 * 3 * 12 :=
  ⟨⟨by norm_num, (calculate_opportunity_cost_spec 2 3 12).1 (by norm_num)⟩,
    ⟨by norm_num, (calculate_opportunity_cost_spec 2 3 0).2.1 (by norm_num)⟩,
    (calculate_opportunity_cost_spec 2 3 0).2.2⟩

/-- C10: a strictly negative annual return rate falls into the linear
no-growth branch, because the guard tests `monthly_return > 0`: the result
is `periodicAmount * years * 12`, the negative rate being ignored. -/
theorem calculate_opportunity_cost_neg_rate (payment_diff years rate : ℝ)
    (h : rate < 0) :
    calculate_opportunity_cost payment_diff years rate
      = payment_diff * years * 12 := by
  unfold calculate_opportunity_cost
  rw [if_neg (by push_neg; nlinarith)]
  ring

/-- Witness for C10 at rate `-1`. -/
theorem calculate_opportunity_cost_neg_rate_witness :
    (-1 : ℝ) < 0 ∧ calculate_opportunity_cost 2 3 (-1) = 2 * 3 * 12 :=
  ⟨by norm_num, calculate_opportunity_cost_neg_rate 2 3 (-1) (by norm_num)⟩

/-- C5 is refuted by the code: `calculate_monthly_payment` has no zero-rate
branch.  At `principal = 1200`, `annualRate = 0`, `years = 1` the
denominator `1 - (1+0)^(-12)` is `0`, so the Python code raises
`ZeroDivisionError` (the real-number embedding yields `0/0 = 0`), instead
of returning `principal / n = 100` as the claim requires. -/
theorem calculate_monthly_payment_zero_rate_unhandled :
    (1 - (1 + (0 : ℝ) / 12) ^ (-(12 * (1 : ℝ)))) = 0
      ∧ calculate_monthly_payment 1200 0 1 = 0
      ∧ (1200 : ℝ) / (12 * 1) = 100
      ∧ calculate_monthly_payment 1200 0 1 ≠ (1200 : ℝ) / (12 * 1) := by
  have hden : (1 - (1 + (0 : ℝ) / 12) ^ (-(12 * (1 : ℝ)))) = 0 := by
    norm_num
  have hval : calculate_monthly_payment 1200 0 1 = 0 := by
    unfold calculate_monthly_payment
    norm_num
  refine ⟨hden, hval, by norm_num, ?_⟩
  rw [hval]
  norm_num

/-- C3: for a term in `[1, 29]`, the sweep's investment branch: a negative
surplus `salary - payment` yields `investment_value_in_term = 0` and
`investment_value` equal to the remaining-years annuity on the full salary;
a non-negative surplus yields the during-term annuity on the surplus plus
the same remaining-years annuity. -/
theorem term_result_investment_branch (c : Config) (term : ℕ)
    (h1 : 1 ≤ term) (h2 : term ≤ 29) :
    (term_result c term).investment_value_in_term =
      (if c.monthly_salary
            - calculate_monthly_payment c.loan_amount c.annual_interest_rate term < 0
       then 0
       else calculate_opportunity_cost
              (c.monthly_salary
                - calculate_monthly_payment c.loan_amount c.annual_interest_rate term)
              term c.investment_return_rate)
    ∧ (term_result c term).investment_value =
      (if c.monthly_salary
            - calculate_monthly_payment c.loan_amount c.annual_interest_rate term < 0
       then calculate_opportunity_cost c.monthly_salary (30 - (term : ℝ))
              c.investment_return_rate
       else calculate_opportunity_cost
              (c.monthly_salary
                - calculate_monthly_payment c.loan_amount c.annual_interest_rate term)
              term c.investment_return_rate
            + calculate_opportunity_cost c.monthly_salary (30 - (term : ℝ))
                c.investment_return_rate) := by
  have h30 : term < 30 := by omega
  unfold term_result
  dsimp only
  rw [if_pos h30]
  split_ifs with hd
  · exact ⟨rfl, rfl⟩
  · exact ⟨rfl, rfl⟩

/-- Witness for C3 at the script's configuration and term 5. -/
theorem term_result_investment_branch_witness :
    ((1 : ℕ) ≤ 5 ∧ (5 : ℕ) ≤ 29) ∧
    ((term_result script_config 5).investment_value_in_term =
      (if script_config.monthly_salary
            - calculate_monthly_payment script_config.loan_amount
                script_config.annual_interest_rate ((5 : ℕ) : ℝ) < 0
       then 0
       else calculate_opportunity_cost
              (script_config.monthly_salary
                - calculate_monthly_payment script_config.loan_amount
                    script_config.annual_interest_rate ((5 : ℕ) : ℝ))
              ((5 : ℕ) : ℝ) script_config.investment_return_rate)
    ∧ (term_result script_config 5).investment_value =
      (if script_config.monthly_salary
            - calculate_monthly_payment script_config.loan_amount
                script_config.annual_interest_rate ((5 : ℕ) : ℝ) < 0
       then calculate_opportunity_cost script_config.monthly_salary
              (30 - ((5 : ℕ) : ℝ)) script_config.investment_return_rate
       else calculate_opportunity_cost
              (script_config.monthly_salary
                - calculate_monthly_payment script_config.loan_amount
                    script_config.annual_interest_rate ((5 : ℕ) : ℝ))
              ((5 : ℕ) : ℝ) script_config.investment_return_rate
            + calculate_opportunity_cost script_config.monthly_salary
                (30 - ((5 : ℕ) : ℝ)) script_config.investment_return_rate)) :=
  ⟨⟨by norm_num, by norm_num⟩,
    term_result_investment_branch script_config 5 (by norm_num) (by norm_num)⟩

/-- C4: the record emitted for term 30 (index 29 of the sweep) has savings
exactly 0 and both investment fields exactly 0, for every configuration. -/
theorem term_result_30_zero (c : Config) :
    (term_results c)[29]? = some (term_result c 30)
      ∧ (term_result c 30).savings = 0
      ∧ (term_result c 30).investment_value_in_term = 0
      ∧ (term_result c 30).investment_value = 0 := by
  refine ⟨?_, ?_, ?_, ?_⟩
  · simp [term_results]
  · rw [term_result_savings]
    simp [total_cost_30, total_interest_30, payment_30]
  · unfold term_result
    dsimp only
    rw [if_neg (by omega)]
  · unfold term_result
    dsimp only
    rw [if_neg (by omega)]

/-- C9: the sweep emits exactly 30 records, and the record at index `i`
carries term `i + 1` (index 0 holds term 1, index 29 holds term 30). -/
theorem term_results_shape (c : Config) :
    (term_results c).length = 30
      ∧ ∀ i : ℕ, i < 30 →
          ((term_results c)[i]?).map TermResult.term = some (i + 1) := by
  constructor
  · simp [term_results]
  · intro i hi
    simp [term_results, hi, term_result_term]

/-- Witness for C9 at the script's configuration and index 0. -/
theorem term_results_shape_witness :
    (term_results script_config).length = 30 ∧ (0 : ℕ) < 30 ∧
      ((term_results script_config)[0]?).map TermResult.term = some 1 :=
  ⟨(term_results_shape script_config).1, by norm_num,
    (term_results_shape script_config).2 0 (by norm_num)⟩

/-! Geometric-sum machinery for the monotonicity of the sweep (C6).
Throughout, `v = (1 + r)⁻¹` is the monthly discount factor, so the payment
denominator `1 - (1+r)^(-m)` becomes `1 - v ^ m = (1 - v) * ∑ i < m, v ^ i`. -/

lemma one_sub_pow_eq_mul_sum (v : ℝ) (m : ℕ) :
    1 - v ^ m = (1 - v) * ∑ i ∈ range m, v ^ i := by
  have h := geom_sum_mul v m
  have h2 : (1 - v) * ∑ i ∈ range m, v ^ i
      = -((∑ i ∈ range m, v ^ i) * (v - 1)) := by ring
  rw [h2, h]
  ring

lemma mul_pow_lt_sum (v : ℝ) (hv0 : 0 < v) (hv1 : v < 1) (m : ℕ) (hm : 1 ≤ m) :
    (m : ℝ) * v ^ m < ∑ i ∈ range m, v ^ i := by
  have h1 : ∑ _i ∈ range m, v ^ m < ∑ i ∈ range m, v ^ i :=
    Finset.sum_lt_sum_of_nonempty (by rw [Finset.nonempty_range_iff]; omega)
      (fun i hi => pow_lt_pow_right_of_lt_one₀ hv0 hv1 (Finset.mem_range.mp hi))
  calc (m : ℝ) * v ^ m = ∑ _i ∈ range m, v ^ m := by
        rw [Finset.sum_const, Finset.card_range, nsmul_eq_mul]
    _ < ∑ i ∈ range m, v ^ i := h1

lemma sum_Ico_pow_le (v : ℝ) (hv0 : 0 ≤ v) (hv1 : v ≤ 1) (m1 m2 : ℕ)
    (h : m1 ≤ m2) :
    ∑ i ∈ Ico m1 m2, v ^ i ≤ ((m2 - m1 : ℕ) : ℝ) * v ^ m1 := by
  calc ∑ i ∈ Ico m1 m2, v ^ i ≤ (Ico m1 m2).card • v ^ m1 :=
        Finset.sum_le_card_nsmul _ _ _
          (fun i hi => pow_le_pow_of_le_one hv0 hv1 (Finset.mem_Ico.mp hi).1)
    _ = ((m2 - m1 : ℕ) : ℝ) * v ^ m1 := by rw [Nat.card_Ico, nsmul_eq_mul]

lemma key_cross (v : ℝ) (hv0 : 0 < v) (hv1 : v < 1) (m1 m2 : ℕ)
    (h1 : 1 ≤ m1) (h12 : m1 < m2) :
    (m1 : ℝ) * ∑ i ∈ range m2, v ^ i < (m2 : ℝ) * ∑ i ∈ range m1, v ^ i := by
  have hsplit : (∑ i ∈ range m1, v ^ i) + ∑ i ∈ Ico m1 m2, v ^ i
      = ∑ i ∈ range m2, v ^ i :=
    Finset.sum_range_add_sum_Ico _ (le_of_lt h12)
  have hT : ∑ i ∈ Ico m1 m2, v ^ i ≤ ((m2 - m1 : ℕ) : ℝ) * v ^ m1 :=
    sum_Ico_pow_le v (le_of_lt hv0) (le_of_lt hv1) m1 m2 (le_of_lt h12)
  have hA : (m1 : ℝ) * v ^ m1 < ∑ i ∈ range m1, v ^ i :=
    mul_pow_lt_sum v hv0 hv1 m1 h1
  have hcast : ((m2 - m1 : ℕ) : ℝ) = (m2 : ℝ) - (m1 : ℝ) :=
    Nat.cast_sub (le_of_lt h12)
  have hm1 : (1 : ℝ) ≤ (m1 : ℝ) := by exact_mod_cast h1
  have hmm : (m1 : ℝ) < (m2 : ℝ) := by exact_mod_cast h12
  rw [← hsplit]
  rw [hcast] at hT
  nlinarith [mul_nonneg (le_trans zero_le_one hm1) (sub_nonneg.mpr hT),
    mul_pos (sub_pos.mpr hmm) (sub_pos.mpr hA)]

lemma frac_lt_frac (v : ℝ) (hv0 : 0 < v) (hv1 : v < 1) (m1 m2 : ℕ)
    (h1 : 1 ≤ m1) (h12 : m1 < m2) :
    (m1 : ℝ) / (1 - v ^ m1) < (m2 : ℝ) / (1 - v ^ m2) := by
  have hd1 : 0 < 1 - v ^ m1 := by
    have := pow_lt_one₀ (le_of_lt hv0) hv1 (by omega : m1 ≠ 0)
    linarith
  have hd2 : 0 < 1 - v ^ m2 := by
    have := pow_lt_one₀ (le_of_lt hv0) hv1 (by omega : m2 ≠ 0)
    linarith
  rw [div_lt_div_iff₀ hd1 hd2]
  rw [one_sub_pow_eq_mul_sum v m1, one_sub_pow_eq_mul_sum v m2]
  have hkey := key_cross v hv0 hv1 m1 m2 h1 h12
  have h1v : 0 < 1 - v := by linarith
  nlinarith [mul_lt_mul_of_pos_left hkey h1v]

/-- The amortized payment at a whole number of years, written with the
discount factor `(1 + rate/12)⁻¹` raised to a natural power. -/
lemma calculate_monthly_payment_eq_pow (P rate : ℝ) (hr : 0 < rate) (a : ℕ) :
    calculate_monthly_payment P rate a
      = P * (rate / 12) / (1 - ((1 + rate / 12)⁻¹) ^ (12 * a)) := by
  unfold calculate_monthly_payment
  dsimp only
  have hb : (0 : ℝ) ≤ 1 + rate / 12 := by
    have : 0 < rate / 12 := div_pos hr (by norm_num)
    linarith
  have hexp : -(12 * ((a : ℕ) : ℝ)) = -(((12 * a : ℕ) : ℝ)) := by
    push_cast
    ring
  rw [hexp, Real.rpow_neg hb, Real.rpow_natCast, ← inv_pow]

lemma payment_strict_anti (P rate : ℝ) (hP : 0 < P) (hr : 0 < rate)
    (a b : ℕ) (ha : 1 ≤ a) (hab : a < b) :
    calculate_monthly_payment P rate b < calculate_monthly_payment P rate a := by
  rw [calculate_monthly_payment_eq_pow P rate hr a,
      calculate_monthly_payment_eq_pow P rate hr b]
  have hr12 : 0 < rate / 12 := div_pos hr (by norm_num)
  have hv0 : 0 < (1 + rate / 12)⁻¹ := inv_pos.mpr (by linarith)
  have hv1 : (1 + rate / 12)⁻¹ < 1 := inv_lt_one_of_one_lt₀ (by linarith)
  have hd1 : 0 < 1 - ((1 + rate / 12)⁻¹) ^ (12 * a) := by
    have := pow_lt_one₀ (le_of_lt hv0) hv1 (by omega : 12 * a ≠ 0)
    linarith
  have hlt : 1 - ((1 + rate / 12)⁻¹) ^ (12 * a)
      < 1 - ((1 + rate / 12)⁻¹) ^ (12 * b) := by
    have := pow_lt_pow_right_of_lt_one₀ hv0 hv1 (by omega : 12 * a < 12 * b)
    linarith
  exact div_lt_div_of_pos_left (mul_pos hP hr12) hd1 hlt

lemma total_interest_strict_mono (P rate : ℝ) (hP : 0 < P) (hr : 0 < rate)
    (a b : ℕ) (ha : 1 ≤ a) (hab : a < b) :
    calculate_total_interest P (calculate_monthly_payment P rate a) a
      < calculate_total_interest P (calculate_monthly_payment P rate b) b := by
  rw [calculate_total_interest_eq, calculate_total_interest_eq]
  have hr12 : 0 < rate / 12 := div_pos hr (by norm_num)
  have hv0 : 0 < (1 + rate / 12)⁻¹ := inv_pos.mpr (by linarith)
  have hv1 : (1 + rate / 12)⁻¹ < 1 := inv_lt_one_of_one_lt₀ (by linarith)
  have hkey := frac_lt_frac ((1 + rate / 12)⁻¹) hv0 hv1 (12 * a) (12 * b)
    (by omega) (by omega)
  have hkey2 := mul_lt_mul_of_pos_left hkey (mul_pos hP hr12)
  have e1 : calculate_monthly_payment P rate a * 12 * ((a : ℕ) : ℝ)
      = P * (rate / 12) *
          (((12 * a : ℕ) : ℝ) / (1 - ((1 + rate / 12)⁻¹) ^ (12 * a))) := by
    rw [calculate_monthly_payment_eq_pow P rate hr a]
    push_cast
    ring
  have e2 : calculate_monthly_payment P rate b * 12 * ((b : ℕ) : ℝ)
      = P * (rate / 12) *
          (((12 * b : ℕ) : ℝ) / (1 - ((1 + rate / 12)⁻¹) ^ (12 * b))) := by
    rw [calculate_monthly_payment_eq_pow P rate hr b]
    push_cast
    ring
  have : calculate_monthly_payment P rate a * 12 * ((a : ℕ) : ℝ)
      < calculate_monthly_payment P rate b * 12 * ((b : ℕ) : ℝ) := by
    rw [e1, e2]
    exact hkey2
  linarith

/-- C6: for positive principal and positive annual rate, along the emitted
sequence the earlier record (shorter term) has strictly smaller total
interest and strictly larger monthly payment: `totalInterest` strictly
decreases and `monthlyPayment` strictly increases as the term decreases
from 30 toward 1. -/
theorem term_results_monotone (c : Config) (hP : 0 < c.loan_amount)
    (hr : 0 < c.annual_interest_rate) (i j : ℕ) (hij : i < j) (hj : j < 30) :
    (term_results c)[i]? = some (term_result c (i + 1))
      ∧ (term_results c)[j]? = some (term_result c (j + 1))
      ∧ (term_result c (i + 1)).total_interest
          < (term_result c (j + 1)).total_interest
      ∧ (term_result c (j + 1)).monthly_payment
          < (term_result c (i + 1)).monthly_payment := by
  have hi : i < 30 := by omega
  refine ⟨?_, ?_, ?_, ?_⟩
  · simp [term_results, hi]
  · simp [term_results, hj]
  · rw [term_result_total_interest, term_result_total_interest]
    exact total_interest_strict_mono _ _ hP hr (i + 1) (j + 1) (by omega) (by omega)
  · rw [term_result_monthly_payment, term_result_monthly_payment]
    exact payment_strict_anti _ _ hP hr (i + 1) (j + 1) (by omega) (by omega)

/-- Witness for C6 at the script's configuration, indices 0 and 1. -/
theorem term_results_monotone_witness :
    (0 : ℝ) < script_config.loan_amount
      ∧ (0 : ℝ) < script_config.annual_interest_rate
      ∧ (0 : ℕ) < 1 ∧ (1 : ℕ) < 30
      ∧ ((term_results script_config)[0]?
            = some (term_result script_config (0 + 1))
          ∧ (term_results script_config)[1]?
              = some (term_result script_config (1 + 1))
          ∧ (term_result script_config (0 + 1)).total_interest
              < (term_result script_config (1 + 1)).total_interest
          ∧ (term_result script_config (1 + 1)).monthly_payment
              < (term_result script_config (0 + 1)).monthly_payment) :=
  ⟨by norm_num [script_config], by norm_num [script_config], by norm_num,
    by norm_num,
    term_results_monotone script_config (by norm_num [script_config])
      (by norm_num [script_config]) 0 1 (by norm_num) (by norm_num)⟩

end MortageCalculator
